import Mathlib

/-!
Shallow embedding of the catalogue construction and query-filtering engine of
`wxlib/retrieve_nwp.py` (Met.3D DWD open-data retrieval utilities), together
with proofs about the claims of the specification.

The embedding follows the Python source line by line:

* `pyIn needle hay` models the Python substring test `needle in hay`.
* `pyDictKeys` models the key sequence of `dict.fromkeys(list)`: first
  occurrences, in order.
* A catalogue is the nested dictionary
  `model -> basetimehour -> variable -> gridtype -> file list`, modelled as
  nested association lists whose values are `Option`-wrapped (a key created by
  `dict.fromkeys` initially holds `None`).
* `determine_remote_files_to_retrieve_dwd_fcvariable` models the resolver
  (lines 321-420 of `retrieve_nwp.py`); the Python function communicates
  failures by returning `None` after logging distinct messages, and it can
  also raise: the result type `ResolveResult` keeps those outcomes apart.
* `prepare_catalogue_of_available_dwd_data` models the catalogue builder
  (lines 235-318), with the remote ftp server abstracted as a pure listing
  function and every `nlst` call recorded in a trace, one trace per call site.
-/

namespace RetrieveNwp

/-- Python substring containment `needle in hay`: some suffix of `hay`
starts with `needle`. -/
def pyIn (needle hay : String) : Bool :=
  (List.range (hay.data.length + 1)).any
    (fun i => needle.data.isPrefixOf (hay.data.drop i))

/-- Key sequence of the Python `dict.fromkeys(l)`: the elements of `l`,
keeping only the first occurrence of each, in order. -/
def pyDictKeys (l : List String) : List String :=
  l.foldl (fun acc k => if acc.contains k then acc else acc ++ [k]) []

/-- Python `s.lower()`: character-wise lowering of the string (stated on the
character list, which is what `String.toLower` maps over). -/
def pyToLower (s : String) : String := String.mk (s.data.map Char.toLower)

/-- Python slice `s[-2:]` (for strings of length below two, the whole
string, as in Python). -/
def pyTakeRightTwo (s : String) : String :=
  String.mk (s.data.drop (s.data.length - 2))

/-- One entry of the innermost catalogue level: grid-type tag to file list. -/
abbrev GridEntry := List (String × List String)

/-- Variable level: variable name to grid-type dictionary (`none` models a
key freshly created by `dict.fromkeys`, still holding Python `None`). -/
abbrev VarMap := List (String × Option GridEntry)

/-- Base-time-hour level. -/
abbrev HourMap := List (String × Option VarMap)

/-- The catalogue: model name to hour dictionary. -/
abbrev Catalogue := List (String × Option HourMap)

/-- The Python chained lookup
`catalogue[model][basetimehour][variable]`: every level must have the key
and its value must not be `None`, otherwise Python raises
(`KeyError`, resp. `TypeError`), modelled by `none`. -/
def catVarEntry (cat : Catalogue) (m h v : String) : Option (Option GridEntry) :=
  match cat.lookup m with
  | some (some hm) =>
    match hm.lookup h with
    | some (some vm) => vm.lookup v
    | _ => none
  | _ => none

/-- The full resolver lookup `catalogue[model][basetimehour][variable][grid_type]`. -/
def catalogueLookup (cat : Catalogue) (m h v g : String) : Option (List String) :=
  match catVarEntry cat m h v with
  | some (some ge) => ge.lookup g
  | _ => none

/-- Lines 364-378: construction of `leadtimelev_list` from the two optional
input lists.  Python applies `str` to each element; an element is therefore
modelled as the string image of whatever the caller passed (the integer `1`
arrives as `"1"`).  The result is `none` exactly when both inputs are `None`
(Python keeps `leadtimelev_list = None` in that case). -/
def buildMatchKeys (leadtime_list level_list : Option (List String)) :
    Option (List String) :=
  match leadtime_list with
  | some lts =>
    let lts2 := lts.map (fun x => "_" ++ x ++ "_")
    match level_list with
    | some lvs =>
      let lvs2 := lvs.map (fun x => x ++ "_")
      some (lts2.flatMap (fun lt => lvs2.map (fun lv => lt ++ lv)))
    | none => some lts2
  | none =>
    match level_list with
    | some lvs => some (lvs.map (fun x => "_" ++ x ++ "_"))
    | none => none

/-- Lines 385-400, the scan over `complete_file_list`.  The accumulator pair
holds `queried_file_list` and the list of keys whose flag has been set to
`True` in `leadtimelev_list_flag`.  A file is appended when some match key
occurs in it (`any(... in ...)`); the flag update loop stops at the first
matching key (the Python loop body ends in `break`), which is exactly
`List.find?`. -/
def scanStep (keys : List String) (acc : List String × List String) (f : String) :
    List String × List String :=
  match keys.find? (fun k => pyIn k f) with
  | some k => (acc.1 ++ [f], if acc.2.contains k then acc.2 else acc.2 ++ [k])
  | none => acc

/-- The scan itself, started from the empty `queried_file_list` and the
all-`False` flag dictionary. -/
def resolveScan (keys files : List String) : List String × List String :=
  files.foldl (scanStep keys) ([], [])

/-- Lines 409-412: the keys of `leadtimelev_list_flag` (first occurrences, in
order, as in `dict.fromkeys`) whose flag is still `False` after the scan. -/
def failedKeys (keys files : List String) : List String :=
  (pyDictKeys keys).filter (fun k => !((resolveScan keys files).2.contains k))

/-- Outcome of the resolver.  The Python function returns the file list on
success and `None` on the three logged failure paths (empty entry, base-time
mismatch, unsatisfied keys); it raises `KeyError`/`TypeError` when the
catalogue path is absent or still holds `None`, and it raises `TypeError`
from `dict.fromkeys(None, False)` when both constraint lists are `None`. -/
inductive ResolveResult where
  | lookupError
  | notFound
  | typeError
  | unsatisfiable (failed : List String)
  | ok (files : List String)
  deriving DecidableEq, Repr

/-- The resolver, lines 321-420 of `retrieve_nwp.py`, translated clause by
clause.  `leadtime_list` and `level_list` elements are the `str` images of
the caller values. -/
def determine_remote_files_to_retrieve_dwd_fcvariable
    (cat : Catalogue) (varname model_name basetime_string grid_type : String)
    (leadtime_list level_list : Option (List String)) : ResolveResult :=
  match catalogueLookup cat (pyToLower model_name) (pyTakeRightTwo basetime_string)
      (pyToLower varname) grid_type with
  | none => .lookupError
  | some complete_file_list =>
    if complete_file_list.length = 0 then .notFound
    else if complete_file_list.any (fun f => !(pyIn basetime_string f)) then .notFound
    else
      match buildMatchKeys leadtime_list level_list with
      | none => .typeError
      | some keys =>
        let failed := failedKeys keys complete_file_list
        if failed.isEmpty then .ok (resolveScan keys complete_file_list).1
        else .unsatisfiable failed

/-- Scenario file of the specification (scenario A). -/
def fileA : String :=
  "cosmo-d2_germany_rotated-lat-lon_model-level_2020022300_001_7_P.grib2.bz2"

/-- A second cataloged file, lead time 002 (scenario D). -/
def fileB : String :=
  "cosmo-d2_germany_rotated-lat-lon_model-level_2020022300_002_7_P.grib2.bz2"

/-- Catalogue holding exactly the scenario-A file. -/
def scnACat : Catalogue :=
  [("cosmo-d2", some [("00", some [("p", some
    [("rotated-lat-lon_model-level", [fileA])])])])]

/-- Catalogue holding two cataloged files (scenario D). -/
def scnDCat : Catalogue :=
  [("cosmo-d2", some [("00", some [("p", some
    [("rotated-lat-lon_model-level", [fileA, fileB])])])])]

/-! Helper lemmas about the scan and the flag dictionary. -/

theorem mem_pyDictKeys_foldl (l : List String) (acc : List String) (x : String) :
    x ∈ l.foldl (fun acc k => if acc.contains k then acc else acc ++ [k]) acc ↔
      x ∈ acc ∨ x ∈ l := by
  induction l generalizing acc with
  | nil => simp
  | cons k ks ih =>
    simp only [List.foldl_cons]
    by_cases h : acc.contains k = true
    · simp only [h, if_true, ih]
      have hk : k ∈ acc := List.elem_iff.mp h
      simp only [List.mem_cons]
      constructor
      · rintro (hx | hx)
        · exact Or.inl hx
        · exact Or.inr (Or.inr hx)
      · rintro (hx | hx | hx)
        · exact Or.inl hx
        · exact Or.inl (hx ▸ hk)
        · exact Or.inr hx
    · have h2 : acc.contains k = false := by simpa using h
      simp only [h2, Bool.false_eq_true, if_false, ih, List.mem_append,
        List.mem_singleton, List.mem_cons]
      tauto

theorem mem_pyDictKeys (l : List String) (x : String) :
    x ∈ pyDictKeys l ↔ x ∈ l := by
  have := mem_pyDictKeys_foldl l [] x
  simpa [pyDictKeys] using this

theorem pyDictKeys_foldl_of_nodup (l : List String) (acc : List String)
    (hnd : l.Nodup) (hdisj : ∀ x ∈ l, x ∉ acc) :
    l.foldl (fun acc k => if acc.contains k then acc else acc ++ [k]) acc = acc ++ l := by
  induction l generalizing acc with
  | nil => simp
  | cons k ks ih =>
    simp only [List.foldl_cons]
    have hknot : acc.contains k = false := by
      by_contra hc
      exact hdisj k (List.mem_cons_self k ks)
        (List.elem_iff.mp (Bool.of_not_eq_false hc))
    rw [hknot]
    simp only [Bool.false_eq_true, if_false]
    rw [ih (acc ++ [k]) (List.Nodup.of_cons hnd)]
    · simp
    · intro x hx
      simp only [List.mem_append, List.mem_singleton]
      rintro (hxa | hxk)
      · exact hdisj x (List.mem_cons_of_mem k hx) hxa
      · exact (List.nodup_cons.mp hnd).1 (hxk ▸ hx)

theorem pyDictKeys_of_nodup (l : List String) (h : l.Nodup) : pyDictKeys l = l := by
  have := pyDictKeys_foldl_of_nodup l [] h (by simp)
  simpa [pyDictKeys] using this

theorem scan_fst_foldl (keys files : List String) (acc : List String × List String) :
    (files.foldl (scanStep keys) acc).1 =
      acc.1 ++ files.filter (fun f => (keys.find? (fun k => pyIn k f)).isSome) := by
  induction files generalizing acc with
  | nil => simp
  | cons f fs ih =>
    simp only [List.foldl_cons, List.filter_cons]
    cases hf : keys.find? (fun k => pyIn k f) with
    | none => simp [scanStep, hf, ih]
    | some k => simp [scanStep, hf, ih]

theorem scan_fst (keys files : List String) :
    (resolveScan keys files).1 =
      files.filter (fun f => (keys.find? (fun k => pyIn k f)).isSome) := by
  have := scan_fst_foldl keys files ([], [])
  simpa [resolveScan] using this

theorem scan_snd_mem_foldl (keys files : List String) (acc : List String × List String)
    (k : String) :
    k ∈ (files.foldl (scanStep keys) acc).2 ↔
      k ∈ acc.2 ∨ ∃ f ∈ files, keys.find? (fun q => pyIn q f) = some k := by
  induction files generalizing acc with
  | nil => simp
  | cons f fs ih =>
    simp only [List.foldl_cons]
    cases hf : keys.find? (fun q => pyIn q f) with
    | none =>
      have hstep : scanStep keys acc f = acc := by simp [scanStep, hf]
      rw [hstep, ih]
      constructor
      · rintro (hx | ⟨g, hg, hgk⟩)
        · exact Or.inl hx
        · exact Or.inr ⟨g, List.mem_cons_of_mem f hg, hgk⟩
      · rintro (hx | ⟨g, hg, hgk⟩)
        · exact Or.inl hx
        · rcases List.mem_cons.mp hg with rfl | hg2
          · exact absurd hgk (by simp [hf])
          · exact Or.inr ⟨g, hg2, hgk⟩
    | some k0 =>
      have hstep : scanStep keys acc f =
          (acc.1 ++ [f], if acc.2.contains k0 then acc.2 else acc.2 ++ [k0]) := by
        simp [scanStep, hf]
      rw [hstep, ih]
      have hmem : k ∈ (if acc.2.contains k0 then acc.2 else acc.2 ++ [k0]) ↔
          k ∈ acc.2 ∨ k = k0 := by
        by_cases hc : acc.2.contains k0 = true
        · have hk0 : k0 ∈ acc.2 := List.elem_iff.mp hc
          simp only [hc, if_true]
          constructor
          · exact fun h => Or.inl h
          · rintro (h | rfl)
            · exact h
            · exact hk0
        · simp only [hc, Bool.false_eq_true, if_false, List.mem_append,
            List.mem_singleton]
      rw [hmem]
      constructor
      · rintro ((hx | rfl) | ⟨g, hg, hgk⟩)
        · exact Or.inl hx
        · exact Or.inr ⟨f, List.mem_cons_self f fs, hf⟩
        · exact Or.inr ⟨g, List.mem_cons_of_mem f hg, hgk⟩
      · rintro (hx | ⟨g, hg, hgk⟩)
        · exact Or.inl (Or.inl hx)
        · rcases List.mem_cons.mp hg with rfl | hg2
          · rw [hf] at hgk
            exact Or.inl (Or.inr (by injection hgk with h; exact h.symm))
          · exact Or.inr ⟨g, hg2, hgk⟩

theorem scan_snd_mem (keys files : List String) (k : String) :
    k ∈ (resolveScan keys files).2 ↔
      ∃ f ∈ files, keys.find? (fun q => pyIn q f) = some k := by
  have := scan_snd_mem_foldl keys files ([], []) k
  simpa [resolveScan] using this

theorem mem_failedKeys (keys files : List String) (k : String) :
    k ∈ failedKeys keys files ↔
      k ∈ keys ∧ ∀ f ∈ files, keys.find? (fun q => pyIn q f) ≠ some k := by
  unfold failedKeys
  rw [List.mem_filter, mem_pyDictKeys]
  have h2 : (!((resolveScan keys files).2.contains k)) = true ↔
      ¬ (k ∈ (resolveScan keys files).2) := by
    rw [Bool.not_eq_true']
    constructor
    · intro hc hm
      have ht : (resolveScan keys files).2.contains k = true := List.elem_iff.mpr hm
      rw [ht] at hc
      exact absurd hc (by decide)
    · intro hm
      by_contra hc
      exact hm (List.elem_iff.mp (Bool.of_not_eq_false hc))
  rw [h2, scan_snd_mem]
  simp only [not_exists, not_and]

theorem unmatched_key_failed (keys files : List String) (k : String)
    (hk : k ∈ keys) (hnone : ∀ f ∈ files, pyIn k f = false) :
    k ∈ failedKeys keys files := by
  rw [mem_failedKeys]
  refine ⟨hk, fun f hf hfind => ?_⟩
  have := List.find?_some hfind
  rw [hnone f hf] at this
  exact Bool.false_ne_true this

/-! Unfolding lemmas for the resolver. -/

theorem determine_eq_of_lookup (cat : Catalogue)
    (vn mn bts gt : String) (lt lv : Option (List String)) (files : List String)
    (h : catalogueLookup cat (pyToLower mn) (pyTakeRightTwo bts) (pyToLower vn) gt
        = some files) :
    determine_remote_files_to_retrieve_dwd_fcvariable cat vn mn bts gt lt lv =
      if files.length = 0 then .notFound
      else if files.any (fun f => !(pyIn bts f)) then .notFound
      else
        match buildMatchKeys lt lv with
        | none => .typeError
        | some keys =>
          if (failedKeys keys files).isEmpty then .ok (resolveScan keys files).1
          else .unsatisfiable (failedKeys keys files) := by
  unfold determine_remote_files_to_retrieve_dwd_fcvariable
  rw [h]

theorem determine_eq_of_lookup_none (cat : Catalogue)
    (vn mn bts gt : String) (lt lv : Option (List String))
    (h : catalogueLookup cat (pyToLower mn) (pyTakeRightTwo bts) (pyToLower vn) gt
        = none) :
    determine_remote_files_to_retrieve_dwd_fcvariable cat vn mn bts gt lt lv =
      .lookupError := by
  unfold determine_remote_files_to_retrieve_dwd_fcvariable
  rw [h]

/-! Claim theorems for the resolver. -/

/-- C1: the specification says that with neither leadTimes nor levels given
the resolver succeeds and returns the full catalogue entry; the code instead
reaches line 383, where dict.fromkeys(None, False) raises TypeError before
the selection loop, although the comment on line 399 of the source states
that in this case all files of the given variable are selected.  Evaluated
at the two-file scenario-D catalogue entry. -/
theorem C1_resolver_raises_without_constraints :
    determine_remote_files_to_retrieve_dwd_fcvariable scnDCat
      "p" "cosmo-d2" "2020022300" "rotated-lat-lon_model-level" none none
      = .typeError := by rfl

/-- C2 counterexample: the claim predicts that resolving the scenario-A
catalogue entry with leadTimes=[1] and levels=[7] returns that single file;
the code renders the lead time with plain str and no zero-padding, so the
match key is the token underscore-1-underscore-7-underscore, which matches
nothing, and the call fails. -/
theorem C2_counterexample_unpadded_leadtime :
    determine_remote_files_to_retrieve_dwd_fcvariable scnACat
      "p" "cosmo-d2" "2020022300" "rotated-lat-lon_model-level"
      (some ["1"]) (some ["7"]) = .unsatisfiable ["_1_7_"] ∧
    determine_remote_files_to_retrieve_dwd_fcvariable scnACat
      "p" "cosmo-d2" "2020022300" "rotated-lat-lon_model-level"
      (some ["1"]) (some ["7"]) ≠ .ok [fileA] := by
  constructor
  · decide
  · decide

/-- C2 amended: when both lists are given the match keys are the Cartesian
product of the two lists, each pair rendered as underscore, the str image of
the lead time (no zero-padding is applied by the resolver), underscore, the
str image of the level, underscore; consequently resolving the scenario-A
entry succeeds when the caller supplies the already padded string "001" and
fails with the unpadded integer 1. -/
theorem C2_amended_match_key_rendering :
    (∀ lts lvs : List String,
      buildMatchKeys (some lts) (some lvs) =
        some (lts.flatMap (fun lt => lvs.map (fun lv => "_" ++ lt ++ "_" ++ lv ++ "_")))) ∧
    determine_remote_files_to_retrieve_dwd_fcvariable scnACat
      "p" "cosmo-d2" "2020022300" "rotated-lat-lon_model-level"
      (some ["001"]) (some ["7"]) = .ok [fileA] ∧
    determine_remote_files_to_retrieve_dwd_fcvariable scnACat
      "p" "cosmo-d2" "2020022300" "rotated-lat-lon_model-level"
      (some ["1"]) (some ["7"]) = .unsatisfiable ["_1_7_"] := by
  refine ⟨?_, by decide, by decide⟩
  intro lts lvs
  simp only [buildMatchKeys]
  congr 1
  induction lts with
  | nil => rfl
  | cons a as ih =>
    simp only [List.map_cons, List.flatMap_cons]
    rw [ih]
    congr 1
    rw [List.map_map]
    congr 1
    funext lv
    exact (String.append_assoc ("_" ++ a ++ "_") lv "_").symm

/-- C3 counterexample: the claim says that when one file contains several
match keys as substrings every one of them is marked satisfied; in the code
the flag loop breaks after the first matching key, so for the single file
containing both keys the second key is reported failed even though the file
contains it. -/
theorem C3_counterexample_break_skips_second_key :
    determine_remote_files_to_retrieve_dwd_fcvariable
      [("m", some [("00", some [("p", some [("g", ["m_2020022300_1_2_x"])])])])]
      "p" "m" "2020022300" "g" (some ["1", "2"]) none = .unsatisfiable ["_2_"] ∧
    pyIn "_2_" "m_2020022300_1_2_x" = true := by
  constructor
  · decide
  · decide

/-- C3 amended: a match key is reported failed exactly when it is never the
first matching key (in match-key order) of any cataloged file; hence a key
contained in no file is always failed, but a key contained only in files
whose earlier listed key also matches is reported failed as well, because
matching stops at the first satisfied key on each file. -/
theorem C3_amended_failed_key_characterization :
    (∀ keys files : List String, ∀ k : String,
      k ∈ failedKeys keys files ↔
        k ∈ keys ∧ ∀ f ∈ files, keys.find? (fun q => pyIn q f) ≠ some k) ∧
    (∀ keys files : List String, ∀ k : String,
      k ∈ keys → (∀ f ∈ files, pyIn k f = false) → k ∈ failedKeys keys files) :=
  ⟨fun keys files k => mem_failedKeys keys files k,
   fun keys files k hk hn => unmatched_key_failed keys files k hk hn⟩

/-- Witness for C3 amended at a concrete input: the key occurs in no file and
is reported failed. -/
theorem C3_amended_witness :
    "_9_" ∈ failedKeys ["_9_"] ["a_2020_b"] :=
  C3_amended_failed_key_characterization.2 ["_9_"] ["a_2020_b"] "_9_"
    (by decide) (by decide)

/-- C4 counterexample: for the scenario-A entry with leadTimes=[1] and
levels=[8] the claim predicts the failure value naming the zero-padded key;
the code names the unpadded key instead. -/
theorem C4_counterexample_failure_key_name :
    determine_remote_files_to_retrieve_dwd_fcvariable scnACat
      "p" "cosmo-d2" "2020022300" "rotated-lat-lon_model-level"
      (some ["1"]) (some ["8"]) = .unsatisfiable ["_1_8_"] ∧
    determine_remote_files_to_retrieve_dwd_fcvariable scnACat
      "p" "cosmo-d2" "2020022300" "rotated-lat-lon_model-level"
      (some ["1"]) (some ["8"]) ≠ .unsatisfiable ["_001_8_"] := by
  constructor
  · decide
  · decide

/-- C4 amended: whenever some match key occurs in no cataloged file, the
resolver fails with the Unsatisfiable value naming exactly the keys never
marked satisfied during the scan, and no partial file sequence is returned;
in particular the never-matching key itself is among the named keys.  For
the scenario-A entry with leadTimes=[1] and levels=[8] the named key set is
the singleton containing the unpadded token. -/
theorem C4_amended_unsatisfiable_failure {cat : Catalogue}
    {vn mn bts gt : String} {lt lv : Option (List String)}
    {files keys : List String} {k : String}
    (h1 : catalogueLookup cat (pyToLower mn) (pyTakeRightTwo bts) (pyToLower vn) gt
        = some files)
    (h2 : files.length ≠ 0)
    (h3 : ∀ f ∈ files, pyIn bts f = true)
    (h4 : buildMatchKeys lt lv = some keys)
    (h5 : k ∈ keys)
    (h6 : ∀ f ∈ files, pyIn k f = false) :
    determine_remote_files_to_retrieve_dwd_fcvariable cat vn mn bts gt lt lv
      = .unsatisfiable (failedKeys keys files) ∧
    k ∈ failedKeys keys files := by
  have hk : k ∈ failedKeys keys files := unmatched_key_failed keys files k h5 h6
  have hne : failedKeys keys files ≠ [] := by
    intro h0
    rw [h0] at hk
    exact List.not_mem_nil k hk
  have hemp : (failedKeys keys files).isEmpty = false := by
    cases hb : (failedKeys keys files).isEmpty
    · rfl
    · exact absurd (List.isEmpty_iff.mp hb) hne
  have hany : (files.any fun f => !(pyIn bts f)) = false := by
    rw [List.any_eq_false]
    intro f hf
    simp [h3 f hf]
  refine ⟨?_, hk⟩
  rw [determine_eq_of_lookup cat vn mn bts gt lt lv files h1, if_neg h2]
  simp only [hany, Bool.false_eq_true, if_false, h4, hemp]

/-- Witness for C4 amended at the scenario-A entry. -/
theorem C4_amended_witness :
    determine_remote_files_to_retrieve_dwd_fcvariable scnACat
      "p" "cosmo-d2" "2020022300" "rotated-lat-lon_model-level"
      (some ["1"]) (some ["8"]) = .unsatisfiable (failedKeys ["_1_8_"] [fileA]) ∧
    "_1_8_" ∈ failedKeys ["_1_8_"] [fileA] :=
  C4_amended_unsatisfiable_failure (by rfl) (by decide) (by decide) (by rfl)
    (by decide) (by decide)

/-- C5 counterexample: for a catalogue in which the key path is absent the
claim predicts the NotFound value; the code raises a lookup error (KeyError)
instead. -/
theorem C5_counterexample_absent_path_raises :
    determine_remote_files_to_retrieve_dwd_fcvariable ([] : Catalogue)
      "p" "m" "2020022300" "g" none none = .lookupError ∧
    determine_remote_files_to_retrieve_dwd_fcvariable ([] : Catalogue)
      "p" "m" "2020022300" "g" none none ≠ .notFound := by
  constructor
  · rfl
  · decide

/-- C5 amended: the resolver returns NotFound only when the entry at the
looked-up key path is the empty list; when the key path is absent from the
catalogue (or a level still holds None) the lookup raises instead of
returning NotFound. -/
theorem C5_amended_notfound_only_for_empty_entry :
    ∀ (cat : Catalogue) (vn mn bts gt : String) (lt lv : Option (List String)),
    (catalogueLookup cat (pyToLower mn) (pyTakeRightTwo bts) (pyToLower vn) gt = none →
      determine_remote_files_to_retrieve_dwd_fcvariable cat vn mn bts gt lt lv
        = .lookupError) ∧
    (catalogueLookup cat (pyToLower mn) (pyTakeRightTwo bts) (pyToLower vn) gt = some [] →
      determine_remote_files_to_retrieve_dwd_fcvariable cat vn mn bts gt lt lv
        = .notFound) := by
  intro cat vn mn bts gt lt lv
  constructor
  · intro h
    exact determine_eq_of_lookup_none cat vn mn bts gt lt lv h
  · intro h
    rw [determine_eq_of_lookup cat vn mn bts gt lt lv [] h]
    simp

/-- Witness for C5 amended: an empty catalogue raises, an empty entry gives
NotFound. -/
theorem C5_amended_witness :
    determine_remote_files_to_retrieve_dwd_fcvariable ([] : Catalogue)
      "p" "m" "2020022300" "g" none none = .lookupError ∧
    determine_remote_files_to_retrieve_dwd_fcvariable
      [("m", some [("00", some [("p", some [("g", ([] : List String))])])])]
      "p" "m" "2020022300" "g" none none = .notFound :=
  ⟨(C5_amended_notfound_only_for_empty_entry [] "p" "m" "2020022300" "g" none none).1
      (by rfl),
   (C5_amended_notfound_only_for_empty_entry
      [("m", some [("00", some [("p", some [("g", ([] : List String))])])])]
      "p" "m" "2020022300" "g" none none).2 (by rfl)⟩

/-- C6: if the looked-up catalogue entry is non-empty and some listed file
does not contain the requested base-time string as a substring, the resolver
returns NotFound, regardless of the other entries in the list. -/
theorem C6_basetime_mismatch_notfound {cat : Catalogue}
    {vn mn bts gt : String} {lt lv : Option (List String)}
    {files : List String} (f : String)
    (h1 : catalogueLookup cat (pyToLower mn) (pyTakeRightTwo bts) (pyToLower vn) gt
        = some files)
    (h2 : files ≠ [])
    (h3 : f ∈ files)
    (h4 : pyIn bts f = false) :
    determine_remote_files_to_retrieve_dwd_fcvariable cat vn mn bts gt lt lv
      = .notFound := by
  have hlen : ¬(files.length = 0) := by
    intro h0
    exact h2 (List.length_eq_zero.mp h0)
  have hany : (files.any fun g => !(pyIn bts g)) = true :=
    List.any_eq_true.mpr ⟨f, h3, by simp [h4]⟩
  rw [determine_eq_of_lookup cat vn mn bts gt lt lv files h1, if_neg hlen]
  simp only [hany, if_true]

/-- Witness for C6: a one-file entry from an older base time. -/
theorem C6_basetime_mismatch_witness :
    determine_remote_files_to_retrieve_dwd_fcvariable
      [("m", some [("00", some [("p", some [("g", ["old_2019010100_f"])])])])]
      "p" "m" "2020022300" "g" none none = .notFound :=
  C6_basetime_mismatch_notfound "old_2019010100_f" (by rfl) (by decide) (by decide)
    (by decide)

/-- C9: resolution is deterministic: the resolver is a pure function of the
catalogue and the constraints, so two calls with identical inputs give the
identical ordered result. -/
theorem C9_resolution_deterministic :
    ∀ (cat : Catalogue) (vn mn bts gt : String) (lt lv : Option (List String)),
    determine_remote_files_to_retrieve_dwd_fcvariable cat vn mn bts gt lt lv
      = determine_remote_files_to_retrieve_dwd_fcvariable cat vn mn bts gt lt lv :=
  fun _ _ _ _ _ _ _ => rfl

/-- C10: a zero-length leadTimes list is not treated like an absent one: for
any catalogue entry passing the base-time filter, an empty leadTimes list
gives an empty match-key set (any supplied levels list is ignored), selects
no file, reports no unsatisfied key, and succeeds with the empty sequence. -/
theorem C10_empty_leadtime_list_empty_success {cat : Catalogue}
    {vn mn bts gt : String} {files : List String} (lv : Option (List String))
    (h1 : catalogueLookup cat (pyToLower mn) (pyTakeRightTwo bts) (pyToLower vn) gt
        = some files)
    (h2 : files.length ≠ 0)
    (h3 : ∀ f ∈ files, pyIn bts f = true) :
    determine_remote_files_to_retrieve_dwd_fcvariable cat vn mn bts gt (some []) lv
      = .ok [] := by
  have hany : (files.any fun f => !(pyIn bts f)) = false := by
    rw [List.any_eq_false]
    intro f hf
    simp [h3 f hf]
  have hkeys : buildMatchKeys (some []) lv = some [] := by
    cases lv <;> rfl
  have hscan : (resolveScan ([] : List String) files).1 = [] := by
    rw [scan_fst]
    simp
  have hfk : failedKeys ([] : List String) files = [] := rfl
  rw [determine_eq_of_lookup cat vn mn bts gt (some []) lv files h1, if_neg h2]
  simp only [hany, Bool.false_eq_true, if_false, hkeys, hfk, List.isEmpty_nil,
    if_true, hscan]

/-- Witness for C10 at the scenario-D entry with a levels list supplied. -/
theorem C10_empty_leadtime_witness :
    determine_remote_files_to_retrieve_dwd_fcvariable scnDCat
      "p" "cosmo-d2" "2020022300" "rotated-lat-lon_model-level"
      (some []) (some ["7"]) = .ok [] :=
  C10_empty_leadtime_list_empty_success (some ["7"]) (by rfl) (by decide) (by decide)

/-! The catalogue builder, lines 235-318 of retrieve_nwp.py. -/

/-- Remote ftp repository, abstracted as a pure directory-listing function:
`listing dir` is what `repository.nlst()` returns after `repository.cwd(dir)`. -/
structure RemoteRepo where
  listing : String → List String

/-- The part of wxlib.config consumed by the builder. -/
structure Config where
  dwd_base_dir : String
  dwd_nwp_models : List String
  grid_types : String → List String

/-- Python dict assignment `d[k] = v` on an association list: replace the
value at the (unique) occurrence of the key in place, else append the new
key at the end (dicts preserve insertion order). -/
def alistSet {α : Type} : List (String × α) → String → α → List (String × α)
  | [], k, v => [(k, v)]
  | (k0, v0) :: rest, k, v =>
    if k0 = k then (k, v) :: rest else (k0, v0) :: alistSet rest k v

/-- Python `d[g].append(f)` on the grid-type dictionary: append `f` to the
list stored at the first occurrence of key `g`.  When the key is absent
Python would raise KeyError; the builder creates every grid-type key before
this is called, so the identity fallback is unreachable. -/
def alistAppendVal : GridEntry → String → String → GridEntry
  | [], _, _ => []
  | (k0, v0) :: rest, k, f =>
    if k0 = k then (k0, v0 ++ [f]) :: rest else (k0, v0) :: alistAppendVal rest k f

/-- Lines 311-314: distribute one listed file over the grid types whose tag
occurs in its name (the inner loop has no break: a file is appended to every
matching grid type). -/
def gridFileStep (grid_type_list : List String) (entry : GridEntry) (f : String) :
    GridEntry :=
  grid_type_list.foldl (fun e g => if pyIn g f then alistAppendVal e g f else e) entry

/-- Lines 305-314: the grid-type dictionary built for one
(model, basetimehour, variable) triple: keys from `dict.fromkeys` of the
model grid-type list, every value initialised to the empty list, then each
listed file appended to every grid type whose tag occurs in its name. -/
def buildGridEntry (grid_type_list file_list : List String) : GridEntry :=
  file_list.foldl (gridFileStep grid_type_list)
    ((pyDictKeys grid_type_list).map (fun g => (g, ([] : List String))))

/-- Builder state.  `bthl` and `vl` are the mutated Python parameters
`basetimehour_list` and `variable_list` (the source reassigns them, which is
what makes later models reuse the first listing); the three trace fields
record the directories passed to the three `nlst` call sites (model level,
basetimehour level, variable level), in order. -/
structure BuildState where
  bthl : Option (List String)
  vl : Option (List String)
  cat : Catalogue
  traceModel : List String
  traceHour : List String
  traceVar : List String
  deriving Repr

/-- Python `catalogue[m][h] = entry`: the model level must already hold a
dictionary (the builder sets it beforehand; Python would raise otherwise,
modelled by the unreachable identity fallback). -/
def catSet2 (cat : Catalogue) (m h : String) (entry : Option VarMap) : Catalogue :=
  match cat.lookup m with
  | some (some hm) => alistSet cat m (some (alistSet hm h entry))
  | _ => cat

/-- Python `catalogue[m][h][v] = entry` under the same convention. -/
def catSet3 (cat : Catalogue) (m h v : String) (entry : Option GridEntry) : Catalogue :=
  match cat.lookup m with
  | some (some hm) =>
    match hm.lookup h with
    | some (some vm) =>
      alistSet cat m (some (alistSet hm h (some (alistSet vm v entry))))
    | _ => cat
  | _ => cat

/-- Lines 296-314: process one variable: list its remote directory and store
the grid-type dictionary for the files found. -/
def processVariable (cfg : Config) (repo : RemoteRepo) (basetimehour_dir m h : String)
    (st : BuildState) (v : String) : BuildState :=
  let variable_dir := basetimehour_dir ++ "/" ++ v
  let file_list := repo.listing variable_dir
  { st with
    cat := catSet3 st.cat m h v (some (buildGridEntry (cfg.grid_types m) file_list)),
    traceVar := st.traceVar ++ [variable_dir] }

/-- Lines 294-314 after the optional variable listing: create the variable
dictionary for the hour and process every variable of the list. -/
def processHourCore (cfg : Config) (repo : RemoteRepo) (basetimehour_dir m h : String)
    (vl : List String) (st : BuildState) : BuildState :=
  let vm : VarMap := (pyDictKeys vl).map (fun v => (v, (none : Option GridEntry)))
  let st2 := { st with cat := catSet2 st.cat m h (some vm) }
  vl.foldl (processVariable cfg repo basetimehour_dir m h) st2

/-- Lines 284-314: process one basetimehour; the variable directories are
listed remotely only when the mutated parameter is still None, and the
listing is stored back into it. -/
def processHour (cfg : Config) (repo : RemoteRepo) (model_dir m : String)
    (st : BuildState) (h : String) : BuildState :=
  let basetimehour_dir := model_dir ++ h
  match st.vl with
  | none =>
    let vl := repo.listing basetimehour_dir
    processHourCore cfg repo basetimehour_dir m h vl
      { st with vl := some vl, traceHour := st.traceHour ++ [basetimehour_dir] }
  | some vl => processHourCore cfg repo basetimehour_dir m h vl st

/-- Lines 282-314 after the optional basetimehour listing: create the hour
dictionary for the model and process every hour of the list. -/
def processModelCore (cfg : Config) (repo : RemoteRepo) (model_dir m : String)
    (bthl : List String) (st : BuildState) : BuildState :=
  let hm : HourMap := (pyDictKeys bthl).map (fun h => (h, (none : Option VarMap)))
  let st2 := { st with cat := alistSet st.cat m (some hm) }
  bthl.foldl (processHour cfg repo model_dir m) st2

/-- Lines 271-314: process one model; the basetimehour directories are
listed remotely only when the mutated parameter is still None, and the
listing is stored back into it. -/
def processModel (cfg : Config) (repo : RemoteRepo) (st : BuildState) (m : String) :
    BuildState :=
  let model_dir := cfg.dwd_base_dir ++ "/" ++ m ++ "/grib/"
  match st.bthl with
  | none =>
    let bthl := repo.listing model_dir
    processModelCore cfg repo model_dir m bthl
      { st with bthl := some bthl, traceModel := st.traceModel ++ [model_dir] }
  | some bthl => processModelCore cfg repo model_dir m bthl st

/-- Lines 235-318: the whole builder (the ftp connection is assumed to
succeed; on connection failure the Python function returns None without
touching the catalogue).  The global catalogue starts as `dict.fromkeys` of
the configured model list, holding None for every model. -/
def prepare_catalogue_of_available_dwd_data (cfg : Config) (repo : RemoteRepo)
    (queried_model_list basetimehour_list variable_list : Option (List String)) :
    BuildState :=
  let models := queried_model_list.getD cfg.dwd_nwp_models
  let st0 : BuildState :=
    { bthl := basetimehour_list, vl := variable_list,
      cat := (pyDictKeys cfg.dwd_nwp_models).map (fun m => (m, (none : Option HourMap))),
      traceModel := [], traceHour := [], traceVar := [] }
  models.foldl (processModel cfg repo) st0

/-- The grid-type registry of wxlib/remote_config.py.  A model outside the
registry would raise KeyError in Python (line 304); the empty fallback list
is unreachable for registry models. -/
def dwd_nwp_models_grid_types (model : String) : List String :=
  if model = "cosmo-d2" then
    ["regular-lat-lon_pressure-level", "regular-lat-lon_model-level",
     "regular-lat-lon_single-level", "regular-lat-lon_time-invariant",
     "rotated-lat-lon_pressure-level", "rotated-lat-lon_model-level",
     "rotated-lat-lon_single-level", "rotated-lat-lon_time-invariant"]
  else if model = "icon-eu" then
    ["regular-lat-lon_pressure-level", "regular-lat-lon_model-level",
     "regular-lat-lon_single-level", "regular-lat-lon_time-invariant"]
  else if model = "icon" then
    ["icosahedral_pressure-level", "icosahedral_model-level",
     "icosahedral_single-level", "icosahedral_time-invariant"]
  else []

/-- The DWD configuration constants of wxlib/remote_config.py. -/
def dwdConfig : Config :=
  { dwd_base_dir := "/weather/nwp/",
    dwd_nwp_models := ["cosmo-d2", "icon-eu", "icon"],
    grid_types := dwd_nwp_models_grid_types }

/-- Hour-level key list of the catalogue entry of a model, when set. -/
def catHourKeys (cat : Catalogue) (m : String) : Option (List String) :=
  match cat.lookup m with
  | some (some hm) => some (hm.map Prod.fst)
  | _ => none

/-- Variable-level key list of the catalogue entry of a model and hour. -/
def catVarKeys (cat : Catalogue) (m h : String) : Option (List String) :=
  match cat.lookup m with
  | some (some hm) =>
    match hm.lookup h with
    | some (some vm) => some (vm.map Prod.fst)
    | _ => none
  | _ => none

/-! Invariant lemmas for the builder folds. -/

theorem foldl_invariant {β : Type} (f : BuildState → β → BuildState)
    (P : BuildState → Prop) (hf : ∀ s b, P s → P (f s b)) :
    ∀ (l : List β) (s : BuildState), P s → P (l.foldl f s) := by
  intro l
  induction l with
  | nil => exact fun s hs => hs
  | cons b bs ih => exact fun s hs => ih (f s b) (hf s b hs)

theorem processHourCore_preserves (cfg : Config) (repo : RemoteRepo)
    (bdir m h : String) (vl : List String) (st : BuildState) :
    (processHourCore cfg repo bdir m h vl st).bthl = st.bthl ∧
    (processHourCore cfg repo bdir m h vl st).traceModel = st.traceModel := by
  unfold processHourCore
  exact foldl_invariant (processVariable cfg repo bdir m h)
    (fun s => s.bthl = st.bthl ∧ s.traceModel = st.traceModel)
    (fun s v hs => ⟨hs.1, hs.2⟩) vl _ ⟨rfl, rfl⟩

theorem processHour_preserves (cfg : Config) (repo : RemoteRepo)
    (mdir m : String) (st : BuildState) (h : String) :
    (processHour cfg repo mdir m st h).bthl = st.bthl ∧
    (processHour cfg repo mdir m st h).traceModel = st.traceModel := by
  unfold processHour
  cases hv : st.vl with
  | none =>
    exact processHourCore_preserves cfg repo (mdir ++ h) m h
      (repo.listing (mdir ++ h)) _
  | some vl =>
    exact processHourCore_preserves cfg repo (mdir ++ h) m h vl st

theorem processModelCore_preserves (cfg : Config) (repo : RemoteRepo)
    (mdir m : String) (bthl : List String) (st : BuildState) :
    (processModelCore cfg repo mdir m bthl st).bthl = st.bthl ∧
    (processModelCore cfg repo mdir m bthl st).traceModel = st.traceModel := by
  unfold processModelCore
  exact foldl_invariant (processHour cfg repo mdir m)
    (fun s => s.bthl = st.bthl ∧ s.traceModel = st.traceModel)
    (fun s h hs =>
      ⟨(processHour_preserves cfg repo mdir m s h).1.trans hs.1,
       (processHour_preserves cfg repo mdir m s h).2.trans hs.2⟩) bthl _ ⟨rfl, rfl⟩

theorem processModel_of_bthl_some (cfg : Config) (repo : RemoteRepo)
    (st : BuildState) (m : String) (L : List String) (h : st.bthl = some L) :
    (processModel cfg repo st m).bthl = some L ∧
    (processModel cfg repo st m).traceModel = st.traceModel := by
  unfold processModel
  rw [h]
  have hp := processModelCore_preserves cfg repo
    (cfg.dwd_base_dir ++ "/" ++ m ++ "/grib/") m L st
  exact ⟨hp.1.trans h, hp.2⟩

theorem processModel_of_bthl_none (cfg : Config) (repo : RemoteRepo)
    (st : BuildState) (m : String) (h : st.bthl = none) :
    (processModel cfg repo st m).bthl
        = some (repo.listing (cfg.dwd_base_dir ++ "/" ++ m ++ "/grib/")) ∧
    (processModel cfg repo st m).traceModel
        = st.traceModel ++ [cfg.dwd_base_dir ++ "/" ++ m ++ "/grib/"] := by
  unfold processModel
  rw [h]
  have hp := processModelCore_preserves cfg repo
    (cfg.dwd_base_dir ++ "/" ++ m ++ "/grib/") m
    (repo.listing (cfg.dwd_base_dir ++ "/" ++ m ++ "/grib/"))
    { st with
      bthl := some (repo.listing (cfg.dwd_base_dir ++ "/" ++ m ++ "/grib/")),
      traceModel := st.traceModel ++ [cfg.dwd_base_dir ++ "/" ++ m ++ "/grib/"] }
  exact ⟨hp.1, hp.2⟩

theorem foldl_models_of_bthl_some (cfg : Config) (repo : RemoteRepo)
    (ms : List String) (st : BuildState) (L : List String) (h : st.bthl = some L) :
    (ms.foldl (processModel cfg repo) st).bthl = some L ∧
    (ms.foldl (processModel cfg repo) st).traceModel = st.traceModel :=
  foldl_invariant (processModel cfg repo)
    (fun s => s.bthl = some L ∧ s.traceModel = st.traceModel)
    (fun s m hs =>
      ⟨(processModel_of_bthl_some cfg repo s m L hs.1).1,
       (processModel_of_bthl_some cfg repo s m L hs.1).2.trans hs.2⟩)
    ms st ⟨h, rfl⟩

theorem processHourCore_preserves_vl (cfg : Config) (repo : RemoteRepo)
    (bdir m h : String) (vl : List String) (st : BuildState) :
    (processHourCore cfg repo bdir m h vl st).vl = st.vl ∧
    (processHourCore cfg repo bdir m h vl st).traceHour = st.traceHour := by
  unfold processHourCore
  exact foldl_invariant (processVariable cfg repo bdir m h)
    (fun s => s.vl = st.vl ∧ s.traceHour = st.traceHour)
    (fun s v hs => ⟨hs.1, hs.2⟩) vl _ ⟨rfl, rfl⟩

theorem processHour_of_vl_some (cfg : Config) (repo : RemoteRepo)
    (mdir m : String) (st : BuildState) (h : String) (V : List String)
    (hv : st.vl = some V) :
    (processHour cfg repo mdir m st h).vl = some V ∧
    (processHour cfg repo mdir m st h).traceHour = st.traceHour := by
  unfold processHour
  rw [hv]
  have hp := processHourCore_preserves_vl cfg repo (mdir ++ h) m h V st
  exact ⟨hp.1.trans hv, hp.2⟩

theorem processModelCore_of_vl_some (cfg : Config) (repo : RemoteRepo)
    (mdir m : String) (bthl : List String) (st : BuildState) (V : List String)
    (hv : st.vl = some V) :
    (processModelCore cfg repo mdir m bthl st).vl = some V ∧
    (processModelCore cfg repo mdir m bthl st).traceHour = st.traceHour := by
  unfold processModelCore
  exact foldl_invariant (processHour cfg repo mdir m)
    (fun s => s.vl = some V ∧ s.traceHour = st.traceHour)
    (fun s h hs =>
      ⟨(processHour_of_vl_some cfg repo mdir m s h V hs.1).1,
       (processHour_of_vl_some cfg repo mdir m s h V hs.1).2.trans hs.2⟩)
    bthl _ ⟨hv, rfl⟩

theorem processModel_of_vl_some (cfg : Config) (repo : RemoteRepo)
    (st : BuildState) (m : String) (V : List String) (hv : st.vl = some V) :
    (processModel cfg repo st m).vl = some V ∧
    (processModel cfg repo st m).traceHour = st.traceHour := by
  unfold processModel
  cases hb : st.bthl with
  | none =>
    exact processModelCore_of_vl_some cfg repo
      (cfg.dwd_base_dir ++ "/" ++ m ++ "/grib/") m _ _ V hv
  | some bthl =>
    exact processModelCore_of_vl_some cfg repo
      (cfg.dwd_base_dir ++ "/" ++ m ++ "/grib/") m bthl st V hv

/-! Concrete input exhibiting the listing-reuse behaviour of the builder. -/

/-- Two-model configuration for the builder counterexample. -/
def cfg7 : Config :=
  { dwd_base_dir := "d", dwd_nwp_models := ["m1", "m2"], grid_types := fun _ => [] }

/-- Remote server on which the two models announce different basetimehour
directories and different variable directories. -/
def repo7 : RemoteRepo :=
  ⟨fun dir =>
    if dir = "d/m1/grib/" then ["00"]
    else if dir = "d/m2/grib/" then ["06"]
    else if dir = "d/m1/grib/00" then ["va"]
    else if dir = "d/m2/grib/00" then ["vb"]
    else []⟩

/-- The build over both models with both optional lists absent. -/
def st7 : BuildState :=
  prepare_catalogue_of_available_dwd_data cfg7 repo7 (some ["m1", "m2"]) none none

/-- C7 counterexample: with baseTimeList and variableList absent, the claim
predicts one remote base-time listing per model and one variable listing per
base time of each model; on this two-model server the build performs exactly
one model-level listing (for m1 only) and one hour-level listing, and the
entry of m2 is keyed by the hours and variables discovered for m1 (hour 00
and variable va) instead of its own (hour 06, variable vb). -/
theorem C7_counterexample_listing_reused :
    st7.traceModel = ["d/m1/grib/"] ∧
    st7.traceModel ≠ ["d/m1/grib/", "d/m2/grib/"] ∧
    catHourKeys st7.cat "m2" = some ["00"] ∧
    catHourKeys st7.cat "m2" ≠ some ["06"] ∧
    st7.traceHour = ["d/m1/grib/00"] ∧
    catVarKeys st7.cat "m2" "00" = some ["va"] := by
  refine ⟨by decide, by decide, by decide, by decide, by decide, by decide⟩

/-- C7 amended: when baseTimeList is absent the base-time-hour directories
are listed remotely exactly once, for the first queried model, and the
resulting list is stored back into the mutated parameter and reused by every
subsequent model; likewise, once the variable list is set (supplied by the
caller or captured from a first listing) no further variable-directory
listing is performed for any later base time or model. -/
theorem C7_amended_single_listing_reused :
    (∀ (cfg : Config) (repo : RemoteRepo) (m1 : String) (rest : List String)
        (vl0 : Option (List String)),
      (prepare_catalogue_of_available_dwd_data cfg repo (some (m1 :: rest)) none
          vl0).traceModel = [cfg.dwd_base_dir ++ "/" ++ m1 ++ "/grib/"] ∧
      (prepare_catalogue_of_available_dwd_data cfg repo (some (m1 :: rest)) none
          vl0).bthl
        = some (repo.listing (cfg.dwd_base_dir ++ "/" ++ m1 ++ "/grib/"))) ∧
    (∀ (cfg : Config) (repo : RemoteRepo) (ms : List String) (st : BuildState)
        (V : List String), st.vl = some V →
      (ms.foldl (processModel cfg repo) st).vl = some V ∧
      (ms.foldl (processModel cfg repo) st).traceHour = st.traceHour) := by
  constructor
  · intro cfg repo m1 rest vl0
    have h0 := processModel_of_bthl_none cfg repo
      { bthl := none, vl := vl0,
        cat := (pyDictKeys cfg.dwd_nwp_models).map
          (fun m => (m, (none : Option HourMap))),
        traceModel := [], traceHour := [], traceVar := [] } m1 rfl
    have hfold := foldl_models_of_bthl_some cfg repo rest _
      (repo.listing (cfg.dwd_base_dir ++ "/" ++ m1 ++ "/grib/")) h0.1
    refine ⟨?_, hfold.1⟩
    have := hfold.2.trans h0.2
    simpa using this
  · intro cfg repo ms st V hv
    exact foldl_invariant (processModel cfg repo)
      (fun s => s.vl = some V ∧ s.traceHour = st.traceHour)
      (fun s m hs =>
        ⟨(processModel_of_vl_some cfg repo s m V hs.1).1,
         (processModel_of_vl_some cfg repo s m V hs.1).2.trans hs.2⟩)
      ms st ⟨hv, rfl⟩

/-- Witness for C7 amended: both parts applied at the concrete two-model
input. -/
theorem C7_amended_witness :
    ((prepare_catalogue_of_available_dwd_data cfg7 repo7 (some ["m1", "m2"]) none
        (some ["v0"])).traceModel = ["d/m1/grib/"] ∧
     (prepare_catalogue_of_available_dwd_data cfg7 repo7 (some ["m1", "m2"]) none
        (some ["v0"])).bthl = some ["00"]) ∧
    ((["m1", "m2"].foldl (processModel cfg7 repo7) st7).vl = some ["va"] ∧
     (["m1", "m2"].foldl (processModel cfg7 repo7) st7).traceHour = st7.traceHour) := by
  constructor
  · have h := C7_amended_single_listing_reused.1 cfg7 repo7 "m1" ["m2"] (some ["v0"])
    exact ⟨h.1.trans (by decide), h.2.trans (by decide)⟩
  · exact C7_amended_single_listing_reused.2 cfg7 repo7 ["m1", "m2"] st7 ["va"]
      (by decide)

/-! Lookup lemmas for association-list updates and the grid-entry build. -/

theorem alistSet_lookup_self {α : Type} (l : List (String × α)) (k : String) (v : α) :
    (alistSet l k v).lookup k = some v := by
  induction l with
  | nil => simp [alistSet, List.lookup]
  | cons p rest ih =>
    obtain ⟨k0, v0⟩ := p
    by_cases h : k0 = k
    · simp [alistSet, h, List.lookup]
    · have hb : (k == k0) = false := beq_eq_false_iff_ne.mpr (fun hh => h hh.symm)
      simp [alistSet, h, List.lookup, ih, hb]

theorem alistAppendVal_keys (e : GridEntry) (g f : String) :
    (alistAppendVal e g f).map Prod.fst = e.map Prod.fst := by
  induction e with
  | nil => rfl
  | cons p rest ih =>
    obtain ⟨k0, v0⟩ := p
    by_cases h : k0 = g <;> simp [alistAppendVal, h, ih]

theorem alistAppendVal_lookup_self (e : GridEntry) (g f : String) :
    (alistAppendVal e g f).lookup g = (e.lookup g).map (fun v => v ++ [f]) := by
  induction e with
  | nil => rfl
  | cons p rest ih =>
    obtain ⟨k0, v0⟩ := p
    by_cases h : k0 = g
    · subst h
      simp [alistAppendVal, List.lookup]
    · have hb : (g == k0) = false := beq_eq_false_iff_ne.mpr (fun hh => h hh.symm)
      simp [alistAppendVal, h, List.lookup, ih, hb]

theorem alistAppendVal_lookup_ne (e : GridEntry) (g f k : String) (h : k ≠ g) :
    (alistAppendVal e g f).lookup k = e.lookup k := by
  induction e with
  | nil => rfl
  | cons p rest ih =>
    obtain ⟨k0, v0⟩ := p
    by_cases h0 : k0 = g
    · subst h0
      have hb : (k == k0) = false := beq_eq_false_iff_ne.mpr h
      simp [alistAppendVal, List.lookup, hb]
    · by_cases h1 : k0 = k
      · subst h1
        simp [alistAppendVal, h0, List.lookup]
      · have hb : (k == k0) = false := beq_eq_false_iff_ne.mpr (fun hh => h1 hh.symm)
        simp [alistAppendVal, h0, h1, List.lookup, ih, hb]

theorem gridFold_keys (f : String) (gs : List String) (e : GridEntry) :
    (gs.foldl (fun e g => if pyIn g f then alistAppendVal e g f else e) e).map Prod.fst
      = e.map Prod.fst := by
  induction gs generalizing e with
  | nil => rfl
  | cons g rest ih =>
    simp only [List.foldl_cons]
    rw [ih]
    cases hp : pyIn g f
    · simp [hp]
    · simp [hp, alistAppendVal_keys]

theorem gridFold_lookup_not_mem (f : String) (gs : List String) (e : GridEntry)
    (g : String) (hg : g ∉ gs) :
    (gs.foldl (fun e g2 => if pyIn g2 f then alistAppendVal e g2 f else e) e).lookup g
      = e.lookup g := by
  induction gs generalizing e with
  | nil => rfl
  | cons g2 rest ih =>
    have hne : g ≠ g2 := fun hh => hg (hh ▸ List.mem_cons_self g2 rest)
    have hnr : g ∉ rest := fun hh => hg (List.mem_cons_of_mem g2 hh)
    simp only [List.foldl_cons]
    rw [ih _ hnr]
    cases hp : pyIn g2 f
    · simp [hp]
    · simp [hp, alistAppendVal_lookup_ne _ _ _ _ hne]

theorem gridFold_lookup_mem (f : String) (gs : List String) (e : GridEntry)
    (g : String) (hnd : gs.Nodup) (hg : g ∈ gs) :
    (gs.foldl (fun e g2 => if pyIn g2 f then alistAppendVal e g2 f else e) e).lookup g
      = if pyIn g f then (e.lookup g).map (fun v => v ++ [f]) else e.lookup g := by
  induction gs generalizing e with
  | nil => cases hg
  | cons g2 rest ih =>
    simp only [List.foldl_cons]
    rcases List.mem_cons.mp hg with rfl | hmem
    · have hnr : g ∉ rest := (List.nodup_cons.mp hnd).1
      rw [gridFold_lookup_not_mem f rest _ g hnr]
      cases hp : pyIn g f
      · simp [hp]
      · simp [hp, alistAppendVal_lookup_self]
    · have hne : g ≠ g2 := by
        rintro rfl
        exact (List.nodup_cons.mp hnd).1 hmem
      rw [ih _ (List.nodup_cons.mp hnd).2 hmem]
      cases hp : pyIn g2 f
      · simp [hp]
      · simp [hp, alistAppendVal_lookup_ne _ _ _ _ hne]

theorem buildGrid_fold_lookup (gl : List String) (g : String) (hnd : gl.Nodup)
    (hg : g ∈ gl) :
    ∀ (fl : List String) (e : GridEntry) (v : List String),
      e.lookup g = some v →
      (fl.foldl (gridFileStep gl) e).lookup g
        = some (v ++ fl.filter (fun f => pyIn g f)) := by
  intro fl
  induction fl with
  | nil =>
    intro e v hv
    simpa using hv
  | cons f fs ih =>
    intro e v hv
    simp only [List.foldl_cons, List.filter_cons]
    have hstep : (gridFileStep gl e f).lookup g
        = if pyIn g f then some (v ++ [f]) else some v := by
      unfold gridFileStep
      rw [gridFold_lookup_mem f gl e g hnd hg]
      cases hp : pyIn g f
      · simp [hp, hv]
      · simp [hp, hv]
    cases hp : pyIn g f
    · simp only [hp, Bool.false_eq_true, if_false] at hstep ⊢
      rw [ih _ v hstep]
    · simp only [hp, if_true] at hstep ⊢
      rw [ih _ (v ++ [f]) hstep]
      simp [List.append_assoc]

theorem lookup_map_pair_const (ks : List String) (c : List String) (g : String)
    (hg : g ∈ ks) : (ks.map (fun k => (k, c))).lookup g = some c := by
  induction ks with
  | nil => cases hg
  | cons k rest ih =>
    by_cases h : k = g
    · subst h
      simp [List.lookup]
    · have hmem : g ∈ rest := by
        rcases List.mem_cons.mp hg with rfl | hm
        · exact absurd rfl h
        · exact hm
      have hb : (g == k) = false := beq_eq_false_iff_ne.mpr (fun hh => h hh.symm)
      simp [List.lookup, hb, ih hmem]

theorem buildGridEntry_keys (gl fl : List String) :
    (buildGridEntry gl fl).map Prod.fst = pyDictKeys gl := by
  unfold buildGridEntry
  have hfold : ∀ (fs : List String) (e : GridEntry),
      (fs.foldl (gridFileStep gl) e).map Prod.fst = e.map Prod.fst := by
    intro fs
    induction fs with
    | nil => intro e; rfl
    | cons f fs2 ih =>
      intro e
      simp only [List.foldl_cons]
      rw [ih]
      exact gridFold_keys f gl e
  rw [hfold]
  rw [List.map_map]
  exact List.map_id _

theorem buildGridEntry_lookup (gl fl : List String) (g : String)
    (hnd : gl.Nodup) (hg : g ∈ gl) :
    (buildGridEntry gl fl).lookup g = some (fl.filter (fun f => pyIn g f)) := by
  unfold buildGridEntry
  have hinit : ((pyDictKeys gl).map (fun k => (k, ([] : List String)))).lookup g
      = some [] :=
    lookup_map_pair_const (pyDictKeys gl) [] g ((mem_pyDictKeys gl g).mpr hg)
  have hres := buildGrid_fold_lookup gl g hnd hg fl _ [] hinit
  simpa using hres

theorem catVarEntry_catSet3 (cat : Catalogue) (m h v : String)
    (entry : Option GridEntry) (hm : HourMap) (vm : VarMap)
    (h1 : cat.lookup m = some (some hm)) (h2 : hm.lookup h = some (some vm)) :
    catVarEntry (catSet3 cat m h v entry) m h v = some entry := by
  unfold catSet3 catVarEntry
  simp only [h1, h2, alistSet_lookup_self]

/-- C8: after the builder processes a (model, basetimehour, variable) triple,
the catalogue entry stored for that triple is the grid-type dictionary whose
keys are exactly the grid types declared for the model in the registry (a
grid type with zero matching files keeps the empty list), and whose value at
each grid type is exactly the sublist of the remote directory listing whose
file names contain that grid-type tag, in server order, a file being listed
under every tag it matches. -/
theorem C8_grid_entry_characterization {cfg : Config} {repo : RemoteRepo}
    {bdir m h v : String} {st : BuildState} (hm : HourMap) (vm : VarMap)
    (h1 : st.cat.lookup m = some (some hm))
    (h2 : hm.lookup h = some (some vm))
    (hnd : (cfg.grid_types m).Nodup) :
    catVarEntry (processVariable cfg repo bdir m h st v).cat m h v
      = some (some (buildGridEntry (cfg.grid_types m)
          (repo.listing (bdir ++ "/" ++ v)))) ∧
    (buildGridEntry (cfg.grid_types m) (repo.listing (bdir ++ "/" ++ v))).map Prod.fst
      = cfg.grid_types m ∧
    ∀ g ∈ cfg.grid_types m,
      (buildGridEntry (cfg.grid_types m) (repo.listing (bdir ++ "/" ++ v))).lookup g
        = some ((repo.listing (bdir ++ "/" ++ v)).filter (fun f => pyIn g f)) := by
  refine ⟨?_, ?_, ?_⟩
  · exact catVarEntry_catSet3 st.cat m h v _ hm vm h1 h2
  · rw [buildGridEntry_keys]
    exact pyDictKeys_of_nodup _ hnd
  · intro g hg
    exact buildGridEntry_lookup _ _ g hnd hg

/-- Remote server for the C8 witness: the variable directory of the cosmo-d2
model holds one rotated-lat-lon model-level file and one regular-lat-lon
pressure-level file. -/
def repo8 : RemoteRepo :=
  ⟨fun dir =>
    if dir = "/weather/nwp//cosmo-d2/grib/00" ++ "/" ++ "p" then
      ["cosmo-d2_germany_rotated-lat-lon_model-level_2020022300_001_7_P.grib2.bz2",
       "cosmo-d2_germany_regular-lat-lon_pressure-level_2020022300_001_500_P.grib2.bz2"]
    else []⟩

/-- Builder state just before the variable step of the C8 witness. -/
def st8 : BuildState :=
  { bthl := some ["00"], vl := some ["p"],
    cat := [("cosmo-d2", some [("00", some [("p", (none : Option GridEntry))])])],
    traceModel := [], traceHour := [], traceVar := [] }

/-- Witness for C8 on the real cosmo-d2 registry entry. -/
theorem C8_grid_entry_witness :
    catVarEntry (processVariable dwdConfig repo8 "/weather/nwp//cosmo-d2/grib/00"
        "cosmo-d2" "00" st8 "p").cat "cosmo-d2" "00" "p"
      = some (some (buildGridEntry (dwdConfig.grid_types "cosmo-d2")
          (repo8.listing ("/weather/nwp//cosmo-d2/grib/00" ++ "/" ++ "p")))) ∧
    (buildGridEntry (dwdConfig.grid_types "cosmo-d2")
        (repo8.listing ("/weather/nwp//cosmo-d2/grib/00" ++ "/" ++ "p"))).map Prod.fst
      = dwdConfig.grid_types "cosmo-d2" ∧
    ∀ g ∈ dwdConfig.grid_types "cosmo-d2",
      (buildGridEntry (dwdConfig.grid_types "cosmo-d2")
          (repo8.listing ("/weather/nwp//cosmo-d2/grib/00" ++ "/" ++ "p"))).lookup g
        = some ((repo8.listing ("/weather/nwp//cosmo-d2/grib/00" ++ "/" ++ "p")).filter
            (fun f => pyIn g f)) :=
  C8_grid_entry_characterization [("00", some [("p", (none : Option GridEntry))])]
    [("p", (none : Option GridEntry))] (by rfl) (by rfl) (by decide)

end RetrieveNwp
